import Mathlib

/-!
Shallow embedding of the template-async-telegram-bot repository
(src/main.py, src/bot/messages.py, src/bot/handlers.py).

The bot is a thin layer over an external Telegram framework: a message
provider hierarchy (BaseMessages, RegularUser, PremiumUser) selected per
update by `get_messages`, three handler classes that each send one reply,
a registration function `setup_handlers`, and a `main` that reads one
environment variable. Python values are embedded as plain Lean data:
the optional premium flag is `Option Bool`, Python truthiness of that
flag is made explicit (`truthy`), exceptions are `Except`, and the
mutable handler attributes (`self.user`, `self.messages`) are threaded
as an explicit `HandlerState`.
-/

/-- A Telegram user reference as the handlers see it: an id and the
optional premium flag (`tg.User.is_premium : Optional[bool]`). -/
structure User where
  id : Nat
  is_premium : Option Bool
deriving DecidableEq, Repr

/-- Python truthiness of an `Optional[bool]`: `None` and `False` are
falsy, `True` is truthy.  Used to embed `not user.is_premium`. -/
def truthy : Option Bool → Bool
  | none => false
  | some b => b

/-- The interface of `BaseMessages` in src/bot/messages.py: the three
response functions every provider variant implements. -/
structure BaseMessages where
  start : String
  help : String
  echo : String → String

/-- RegularUser.start from src/bot/messages.py. -/
def RegularUser.start : String := "hello!"

/-- RegularUser.help from src/bot/messages.py. -/
def RegularUser.help : String := "You need to purchase a subscription"

/-- RegularUser.echo from src/bot/messages.py: the f-string of a string
argument is that string itself. -/
def RegularUser.echo (text : String) : String := text

/-- PremiumUser.start from src/bot/messages.py (overridden with the same
literal as RegularUser.start). -/
def PremiumUser.start : String := "hello!"

/-- PremiumUser.help from src/bot/messages.py. -/
def PremiumUser.help : String := "help mock!"

/-- PremiumUser.echo: PremiumUser does not override echo, it inherits
RegularUser.echo. -/
def PremiumUser.echo (text : String) : String := RegularUser.echo text

/-- The RegularUser provider instance bundled as a BaseMessages value. -/
def RegularUserMessages : BaseMessages :=
  ⟨RegularUser.start, RegularUser.help, RegularUser.echo⟩

/-- The PremiumUser provider instance bundled as a BaseMessages value. -/
def PremiumUserMessages : BaseMessages :=
  ⟨PremiumUser.start, PremiumUser.help, PremiumUser.echo⟩

/-- get_messages from src/bot/messages.py:
`if not user.is_premium: return PremiumUser()` and otherwise
`return RegularUser()`. -/
def get_messages (user : User) : BaseMessages :=
  if !truthy user.is_premium then PremiumUserMessages else RegularUserMessages

/-- C1: a user whose premium flag is `False` gets the PremiumUser variant
whose help is "help mock!", and a user whose premium flag is `True` gets
the RegularUser variant whose help is "You need to purchase a
subscription" (the as-written, possibly inverted rule). -/
theorem c1_selection_rule (u : User) :
    (u.is_premium = some false →
      get_messages u = PremiumUserMessages ∧
      (get_messages u).help = "help mock!") ∧
    (u.is_premium = some true →
      get_messages u = RegularUserMessages ∧
      (get_messages u).help = "You need to purchase a subscription") := by
  constructor <;> intro h <;> simp [get_messages, truthy, h] <;> rfl

/-- Witness for C1 at two concrete users, one with flag False, one with
flag True. -/
theorem c1_selection_rule_witness :
    (get_messages ⟨1, some false⟩ = PremiumUserMessages ∧
      (get_messages ⟨1, some false⟩).help = "help mock!") ∧
    (get_messages ⟨2, some true⟩ = RegularUserMessages ∧
      (get_messages ⟨2, some true⟩).help =
        "You need to purchase a subscription") :=
  ⟨(c1_selection_rule ⟨1, some false⟩).1 rfl,
   (c1_selection_rule ⟨2, some true⟩).2 rfl⟩

/-- C2: echo is the identity on strings for both provider variants and
for the provider selected for any user. -/
theorem c2_echo_identity (s : String) :
    RegularUser.echo s = s ∧ PremiumUser.echo s = s ∧
    ∀ u : User, (get_messages u).echo s = s := by
  refine ⟨rfl, rfl, fun u => ?_⟩
  unfold get_messages
  split <;> rfl

/-- C3: start returns "hello!" for the provider selected for every user,
regardless of the premium flag. -/
theorem c3_start_constant (u : User) :
    (get_messages u).start = "hello!" := by
  unfold get_messages
  split <;> rfl

/-- C7: the two provider variants agree on start and agree pointwise on
echo; they differ only in help. -/
theorem c7_variants_agree :
    PremiumUserMessages.start = RegularUserMessages.start ∧
    (∀ s, PremiumUserMessages.echo s = RegularUserMessages.echo s) ∧
    PremiumUserMessages.help ≠ RegularUserMessages.help :=
  ⟨rfl, fun _ => rfl, by decide⟩

/-- C10: a user whose premium flag is absent (None) is treated as
non-premium: get_messages returns the PremiumUser variant and help is
"help mock!". -/
theorem c10_none_flag (u : User) (h : u.is_premium = none) :
    get_messages u = PremiumUserMessages ∧
    (get_messages u).help = "help mock!" := by
  simp [get_messages, truthy, h]; rfl

/-- Witness for C10 at a concrete user with an unset flag. -/
theorem c10_none_flag_witness :
    get_messages ⟨3, none⟩ = PremiumUserMessages ∧
    (get_messages ⟨3, none⟩).help = "help mock!" :=
  c10_none_flag ⟨3, none⟩ rfl

/-- An inbound update as the handlers consume it: the framework's
`update.effective_user` (optional in the framework's typing) and the
text of `update.message`. -/
structure Update where
  effective_user : Option User
  message_text : String
deriving DecidableEq, Repr

/-- A Python exception surfacing from handler code: the AttributeError
raised by `get_messages(None)` dereferencing `user.is_premium`, or a
failure raised by the framework's `reply_text` send call. -/
inductive PyErr
  | attributeError
  | sendFailure (msg : String)
deriving DecidableEq, Repr

/-- The three concrete handler classes of src/bot/handlers.py. -/
inductive HandlerKind
  | StartHandler
  | HelpHandler
  | EchoHandler
deriving DecidableEq, Repr

/-- The mutable attributes of a handler instance: `self.user`
(initialised to None in `__init__`) and `self.messages` (absent until
first assigned in `__call__`, hence Option). -/
structure HandlerState where
  user : Option User
  messages : Option BaseMessages

/-- The handler state a freshly constructed handler instance has:
`self.user = None` and no `messages` attribute yet. -/
def initHandlerState : HandlerState := ⟨none, none⟩

/-- Outcome of one handler invocation: the instance state afterwards,
the list of replies actually sent, and normal return or an exception. -/
structure CallResult where
  state : HandlerState
  sent : List String
  result : Except PyErr Unit

/-- Resolving the provider for `update.effective_user`: when the user is
None, `not user.is_premium` in get_messages raises AttributeError;
otherwise get_messages returns normally. -/
def get_messagesE : Option User → Except PyErr BaseMessages
  | none => Except.error PyErr.attributeError
  | some u => Except.ok (get_messages u)

/-- The reply text produced by each subclass's `handle`: StartHandler
sends `self.messages.start()`, HelpHandler sends `self.messages.help()`,
EchoHandler sends `self.messages.echo(update.message.text)`. -/
def handleReply (k : HandlerKind) (m : BaseMessages) (u : Update) : String :=
  match k with
  | HandlerKind.StartHandler => m.start
  | HandlerKind.HelpHandler => m.help
  | HandlerKind.EchoHandler => m.echo u.message_text

/-- BaseHandler.__call__ from src/bot/handlers.py, with the send call of
`handle` inlined: assign `self.user = update.effective_user`, assign
`self.messages = get_messages(self.user)` (which may raise), then have
`handle` send the reply through the framework (which may raise).  The
prior instance state `s` is the state left by the previous invocation. -/
def BaseHandler.call (k : HandlerKind) (send : String → Except PyErr Unit)
    (s : HandlerState) (u : Update) : CallResult :=
  match get_messagesE u.effective_user with
  | Except.error e => ⟨⟨u.effective_user, s.messages⟩, [], Except.error e⟩
  | Except.ok m =>
    match send (handleReply k m u) with
    | Except.error e => ⟨⟨u.effective_user, some m⟩, [], Except.error e⟩
    | Except.ok _ =>
      ⟨⟨u.effective_user, some m⟩, [handleReply k m u], Except.ok ()⟩

/-- A send function that always succeeds, modelling a healthy transport. -/
def sendAlwaysOk : String → Except PyErr Unit := fun _ => Except.ok ()

/-- C4: on a handled update whose user resolves and whose send succeeds,
the handler sends exactly one reply, equal to the corresponding provider
function's output: start() for StartHandler, help() for HelpHandler, and
echo of the message text for EchoHandler. -/
theorem c4_one_reply (k : HandlerKind) (send : String → Except PyErr Unit)
    (s : HandlerState) (u : Update) (usr : User)
    (hu : u.effective_user = some usr) (hsend : ∀ r, send r = Except.ok ()) :
    (BaseHandler.call k send s u).sent = [handleReply k (get_messages usr) u] ∧
    (BaseHandler.call k send s u).sent.length = 1 ∧
    handleReply HandlerKind.StartHandler (get_messages usr) u =
      (get_messages usr).start ∧
    handleReply HandlerKind.HelpHandler (get_messages usr) u =
      (get_messages usr).help ∧
    handleReply HandlerKind.EchoHandler (get_messages usr) u =
      (get_messages usr).echo u.message_text := by
  unfold BaseHandler.call
  rw [hu]
  simp [get_messagesE, hsend, handleReply]

/-- Witness for C4: the plain-text update "ping" from a concrete user
yields exactly the single reply "ping" from the echo handler. -/
theorem c4_one_reply_witness :
    (BaseHandler.call HandlerKind.EchoHandler sendAlwaysOk initHandlerState
      ⟨some ⟨5, some false⟩, "ping"⟩).sent = ["ping"] :=
  (c4_one_reply HandlerKind.EchoHandler sendAlwaysOk initHandlerState
    ⟨some ⟨5, some false⟩, "ping"⟩ ⟨5, some false⟩ rfl (fun _ => rfl)).1

/-- C6 (amended): what a handler invocation sends, and whether it raises,
depend only on its own incoming update and the transport, never on the
instance state left by previous invocations. -/
theorem c6_reply_depends_only_on_update (k : HandlerKind)
    (send : String → Except PyErr Unit) (s s' : HandlerState) (u : Update) :
    (BaseHandler.call k send s u).sent = (BaseHandler.call k send s' u).sent ∧
    (BaseHandler.call k send s u).result =
      (BaseHandler.call k send s' u).result := by
  unfold BaseHandler.call
  cases hm : get_messagesE u.effective_user with
  | error e => exact ⟨rfl, rfl⟩
  | ok m => cases hs : send (handleReply k m u) <;> exact ⟨rfl, rfl⟩

/-- C6 counterexample: handler instances are shared across invocations
and `__call__` writes `self.user` and `self.messages`; after one
invocation on a fresh instance the instance state holds that
invocation's user, and this state is exactly what the next invocation
receives, so mutable state written by one invocation is visible to the
next. -/
theorem c6_state_persists_counterexample :
    (BaseHandler.call HandlerKind.StartHandler sendAlwaysOk initHandlerState
      ⟨some ⟨7, some false⟩, "/start"⟩).state.user = some ⟨7, some false⟩ ∧
    initHandlerState.user = none ∧
    (BaseHandler.call HandlerKind.StartHandler sendAlwaysOk initHandlerState
      ⟨some ⟨7, some false⟩, "/start"⟩).state.user ≠ initHandlerState.user :=
  ⟨rfl, rfl, by decide⟩

/-- C8: exceptions propagate out of the handler unmodified.  If resolving
the provider raises, the invocation re-raises exactly that exception and
sends no reply (the state write to `self.user` has already happened); if
the send call raises, the invocation re-raises exactly that exception
and no reply was delivered. -/
theorem c8_exception_propagation (k : HandlerKind)
    (send : String → Except PyErr Unit) (s : HandlerState) (u : Update) :
    (∀ e, get_messagesE u.effective_user = Except.error e →
      BaseHandler.call k send s u =
        ⟨⟨u.effective_user, s.messages⟩, [], Except.error e⟩) ∧
    (∀ m e, get_messagesE u.effective_user = Except.ok m →
      send (handleReply k m u) = Except.error e →
      (BaseHandler.call k send s u).result = Except.error e ∧
      (BaseHandler.call k send s u).sent = []) := by
  constructor
  · intro e he
    unfold BaseHandler.call
    rw [he]
  · intro m e hm hs
    unfold BaseHandler.call
    simp [hm, hs]

/-- Witness for C8: an update with no resolvable user propagates the
AttributeError with nothing sent, and a failing transport propagates the
send failure with nothing sent. -/
theorem c8_exception_propagation_witness :
    BaseHandler.call HandlerKind.StartHandler sendAlwaysOk initHandlerState
      ⟨none, "hi"⟩ =
      ⟨⟨none, none⟩, [], Except.error PyErr.attributeError⟩ ∧
    ((BaseHandler.call HandlerKind.EchoHandler
        (fun _ => Except.error (PyErr.sendFailure "network down"))
        initHandlerState ⟨some ⟨9, none⟩, "hi"⟩).result =
      Except.error (PyErr.sendFailure "network down") ∧
     (BaseHandler.call HandlerKind.EchoHandler
        (fun _ => Except.error (PyErr.sendFailure "network down"))
        initHandlerState ⟨some ⟨9, none⟩, "hi"⟩).sent = []) :=
  ⟨(c8_exception_propagation HandlerKind.StartHandler sendAlwaysOk
      initHandlerState ⟨none, "hi"⟩).1 PyErr.attributeError rfl,
   (c8_exception_propagation HandlerKind.EchoHandler
      (fun _ => Except.error (PyErr.sendFailure "network down"))
      initHandlerState ⟨some ⟨9, none⟩, "hi"⟩).2
      (get_messages ⟨9, none⟩) (PyErr.sendFailure "network down") rfl rfl⟩

/-- Modelled from the spec: whether a message text is a command, i.e.
begins with the command marker "/" (the spec's "command-like prefixes"
and the example "/unknown"). -/
def isCommandText (s : String) : Bool :=
  match s.data with
  | [] => false
  | c :: _ => c == '/'

/-- Modelled from the spec: the external framework's text filter
(tg_ext.filters.TEXT), accepting updates whose message carries text. -/
def filterTEXT (u : Update) : Bool := u.message_text != ""

/-- Modelled from the spec: the external framework's command filter
(tg_ext.filters.COMMAND), accepting updates whose message is a command. -/
def filterCOMMAND (u : Update) : Bool := isCommandText u.message_text

/-- The predicate registered for EchoHandler in setup_handlers:
`tg_ext.filters.TEXT & ~tg_ext.filters.COMMAND`. -/
def echoRegistrationFilter (u : Update) : Bool :=
  filterTEXT u && !filterCOMMAND u

/-- A registration entry passed to application.add_handler: either a
CommandHandler for a named command or a MessageHandler with a filter. -/
inductive Trigger
  | command (nm : String)
  | message (accepts : Update → Bool)

/-- setup_handlers from src/bot/handlers.py: the three add_handler calls
in source order. -/
def setup_handlers : List (Trigger × HandlerKind) :=
  [(Trigger.command "start", HandlerKind.StartHandler),
   (Trigger.command "help", HandlerKind.HelpHandler),
   (Trigger.message echoRegistrationFilter, HandlerKind.EchoHandler)]

/-- Spec-side predicate (for comparison with the registered filter): a
text message that is not a command. -/
def specNonCommandText (u : Update) : Prop :=
  u.message_text ≠ "" ∧ isCommandText u.message_text = false

/-- C5: the echo handler's registration predicate rejects every
command-prefixed message and accepts exactly the text messages that are
not commands; it is the predicate registered for EchoHandler in
setup_handlers. -/
theorem c5_echo_filter (u : Update) :
    (isCommandText u.message_text = true → echoRegistrationFilter u = false) ∧
    (echoRegistrationFilter u = true ↔ specNonCommandText u) ∧
    setup_handlers[2]? =
      some (Trigger.message echoRegistrationFilter, HandlerKind.EchoHandler) := by
  refine ⟨fun h => ?_, ?_, rfl⟩
  · simp [echoRegistrationFilter, filterCOMMAND, h]
  · simp [echoRegistrationFilter, filterTEXT, filterCOMMAND,
      specNonCommandText, Bool.and_eq_true, bne_iff_ne, Bool.not_eq_true]

/-- Witness for C5: "/unknown" is filtered out, the plain text "ping" is
accepted. -/
theorem c5_echo_filter_witness :
    echoRegistrationFilter ⟨none, "/unknown"⟩ = false ∧
    echoRegistrationFilter ⟨none, "ping"⟩ = true :=
  ⟨(c5_echo_filter ⟨none, "/unknown"⟩).1 (by decide),
   (c5_echo_filter ⟨none, "ping"⟩).2.1.mpr ⟨by decide, by decide⟩⟩

/-- Result of an environment read: the value obtained and the log of
variable names read. -/
structure EnvRead where
  value : String
  reads : List String
deriving DecidableEq, Repr

/-- Embedding of Python os.getenv(name, default) over an explicit
environment: yields the variable's value, or the default when unset, and
logs the one name read. -/
def os.getenv (env : String → Option String) (nm dflt : String) : EnvRead :=
  ⟨(env nm).getD dflt, [nm]⟩

/-- The environment reading done by main in src/main.py:
`telegram_token = os.getenv('TOKEN', '')` is the only environment read
in the program's own code, executed once at startup. -/
def mainTokenRead (env : String → Option String) : EnvRead :=
  os.getenv env "TOKEN" ""

/-- C9: at startup main reads exactly the one variable TOKEN exactly
once; when it is unset the token is the empty string, and when set the
value is used as-is with no validation. -/
theorem c9_token_env (env : String → Option String) :
    (mainTokenRead env).reads = ["TOKEN"] ∧
    (env "TOKEN" = none → (mainTokenRead env).value = "") ∧
    (∀ v, env "TOKEN" = some v → (mainTokenRead env).value = v) := by
  refine ⟨rfl, fun h => ?_, fun v h => ?_⟩ <;> simp [mainTokenRead, os.getenv, h]

/-- Witness for C9 at the empty environment: the read log is exactly
TOKEN and the token falls back to the empty string. -/
theorem c9_token_env_witness :
    (mainTokenRead (fun _ => none)).reads = ["TOKEN"] ∧
    (mainTokenRead (fun _ => none)).value = "" :=
  ⟨(c9_token_env (fun _ => none)).1, (c9_token_env (fun _ => none)).2.1 rfl⟩
